import Mathlib

/-!
# Verification of the enhanced PDF extraction service

Shallow embedding of `enhanced_pdf_service.py`: the text sanitizer
(`clean_text_for_database`), the three extraction strategies
(`extract_with_pypdf2`, `extract_with_ocr`, `extract_with_docling`), the
preview generator (`generate_pdf_preview_image`) and the strategy chain
(`extract_pdf`).  HTTP routing, request parsing and the temp-file download
glue are out of scope; the embedding starts where the PDF file is on disk.

Strings are modelled as Lean `String`s (sequences of Unicode code points,
matching Python `str` semantics for indexing and length); the regular
expression substitutions of the sanitizer are modelled as structural
character-list transducers proved against Python `re.sub` left-to-right,
non-overlapping, greedy matching semantics.
-/

/-- The set of characters Python's `re` module treats as whitespace (`\s`)
for `str` patterns, which coincides with `str.isspace`: the ASCII
whitespace characters and the Unicode `White_Space` code points. -/
def isSpaceChar (c : Char) : Bool :=
  let n := c.toNat
  (0x09 ≤ n && n ≤ 0x0D) || n == 0x20 || (0x1C ≤ n && n ≤ 0x1F) ||
  n == 0x85 || n == 0xA0 || n == 0x1680 || (0x2000 ≤ n && n ≤ 0x200A) ||
  n == 0x2028 || n == 0x2029 || n == 0x202F || n == 0x205F || n == 0x3000

/-- Characters matched by the second removal pattern of
`clean_text_for_database`: `[\x01-\x08\x0B\x0C\x0E-\x1F\x7F]`. -/
def isCtlChar (c : Char) : Bool :=
  let n := c.toNat
  (0x01 ≤ n && n ≤ 0x08) || n == 0x0B || n == 0x0C ||
  (0x0E ≤ n && n ≤ 0x1F) || n == 0x7F

/-- Characters in the Unicode private use area `[-]`. -/
def isPuaChar (c : Char) : Bool :=
  0xE000 ≤ c.toNat && c.toNat ≤ 0xF8FF

/-- Characters in the Unicode specials block `[￰-￿]`. -/
def isSpecialsChar (c : Char) : Bool :=
  0xFFF0 ≤ c.toNat && c.toNat ≤ 0xFFFF

/-- A character that survives the five removal substitutions of
`clean_text_for_database` (NUL, control characters, U+FFFD, private use
area, specials block). -/
def keepChar (c : Char) : Bool :=
  !(c.toNat == 0x00) && !isCtlChar c && !(c.toNat == 0xFFFD) &&
  !isPuaChar c && !isSpecialsChar c

/-- The five character-removal substitutions of `clean_text_for_database`
(lines 82-86 of the source), each a `re.sub(class, '', ...)`, hence a
character filter. -/
def removePhase (l : List Char) : List Char :=
  (((((l.filter (fun c => !(c.toNat == 0x00))).filter
      (fun c => !isCtlChar c)).filter
      (fun c => !(c.toNat == 0xFFFD))).filter
      (fun c => !isPuaChar c)).filter
      (fun c => !isSpecialsChar c))

/-- `re.sub(r'\s+', ' ', ...)`: every maximal whitespace run becomes a
single ASCII space.  The boolean flag records whether the previous
character was whitespace (i.e. whether we are inside a run whose
replacement space has already been emitted). -/
def collapseWsFlag : Bool → List Char → List Char
  | _, [] => []
  | afterSpace, c :: rest =>
    if isSpaceChar c then
      if afterSpace then collapseWsFlag true rest
      else ' ' :: collapseWsFlag true rest
    else c :: collapseWsFlag false rest

def collapseWs (l : List Char) : List Char := collapseWsFlag false l

/-- Terminal punctuation class `[.!?]` of the repeated-punctuation
substitution. -/
def isTermPunct (c : Char) : Bool := c == '.' || c == '!' || c == '?'

/-- Punctuation class `[.!?,:;]` of the space-before-punctuation
substitution. -/
def isPrePunct (c : Char) : Bool :=
  c == '.' || c == '!' || c == '?' || c == ',' || c == ':' || c == ';'

/-- Scanner state for `re.sub(r'([.!?])\s*([.!?])+', r'\1', ...)`:
`norm` = outside any candidate match; `afterP p ws` = saw terminal
punctuation `p` followed by the whitespace run `ws` (stored reversed),
awaiting a second punctuation character to complete a match; `consume` =
inside the trailing `([.!?])+` group of a completed match, dropping
further terminal punctuation. -/
inductive PcState where
  | norm : PcState
  | afterP : Char → List Char → PcState
  | consume : PcState

/-- `re.sub(r'([.!?])\s*([.!?])+', r'\1', ...)` with Python's
left-to-right, non-overlapping, greedy semantics (replacements are not
rescanned). -/
def pcAux : PcState → List Char → List Char
  | .norm, [] => []
  | .afterP p ws, [] => p :: ws.reverse
  | .consume, [] => []
  | .norm, c :: rest =>
    if isTermPunct c then pcAux (.afterP c []) rest
    else c :: pcAux .norm rest
  | .afterP p ws, c :: rest =>
    if isTermPunct c then p :: pcAux .consume rest
    else if isSpaceChar c then pcAux (.afterP p (c :: ws)) rest
    else p :: (ws.reverse ++ c :: pcAux .norm rest)
  | .consume, c :: rest =>
    if isTermPunct c then pcAux .consume rest
    else c :: pcAux .norm rest

def punctCollapse (l : List Char) : List Char := pcAux .norm l

/-- `re.sub(r'\s+([.!?,:;])', r'\1', ...)`: a whitespace run immediately
followed by punctuation is deleted.  The first argument accumulates the
pending whitespace run (reversed) whose fate is not yet decided. -/
def dwbpAux : List Char → List Char → List Char
  | pend, [] => pend.reverse
  | pend, c :: rest =>
    if isSpaceChar c then dwbpAux (c :: pend) rest
    else if isPrePunct c && !pend.isEmpty then c :: dwbpAux [] rest
    else pend.reverse ++ c :: dwbpAux [] rest

def dropWsBeforePunct (l : List Char) : List Char := dwbpAux [] l

/-- Remove a trailing whitespace run (the right half of Python's
`str.strip()`). -/
def dropTrailing : List Char → List Char
  | [] => []
  | c :: rest =>
    match dropTrailing rest with
    | [] => if isSpaceChar c then [] else [c]
    | r => c :: r

/-- Python `str.strip()` on a character list. -/
def pyStrip (l : List Char) : List Char :=
  dropTrailing (l.dropWhile isSpaceChar)

/-- Python `str.strip()` on a string. -/
def pyStripS (s : String) : String := ⟨pyStrip s.data⟩

/-- `clean_text_for_database` (source lines 76-93): five character-class
removals, whitespace collapsing, repeated-punctuation collapsing, removal
of whitespace before punctuation, and a final trim.  The `if not text`
guard returns `""` for the empty string. -/
def clean_text_for_database (s : String) : String :=
  if s.data.isEmpty then ""
  else ⟨pyStrip (dropWsBeforePunct (punctCollapse (collapseWs (removePhase s.data))))⟩

/-- Python `str.split('\n')`: split on every newline, keeping empty
pieces; the empty string yields `[""]`. -/
def splitNl : List Char → List (List Char)
  | [] => [[]]
  | c :: rest =>
    if c == '\n' then [] :: splitNl rest
    else
      match splitNl rest with
      | [] => [[c]]
      | l :: ls => (c :: l) :: ls

/-- Lines of a string, as Python `s.split('\n')`. -/
def pyLines (s : String) : List String := (splitNl s.data).map String.mk

/-- `s.isdigit()` on the relevant (ASCII) fragment: non-empty and every
character a decimal digit.  (Python additionally accepts non-ASCII
Unicode digit code points; no string built by this service contains
them.) -/
def pyIsDigit (s : String) : Bool := !s.data.isEmpty && s.data.all Char.isDigit

/-- Does `needle` occur at the start of `hay`? -/
def listHasStart : List Char → List Char → Bool
  | [], _ => true
  | _ :: _, [] => false
  | a :: as, b :: bs => a == b && listHasStart as bs

/-- Python `needle in hay` substring containment. -/
def containsSub (needle : List Char) : List Char → Bool
  | [] => needle.isEmpty
  | c :: rest => listHasStart needle (c :: rest) || containsSub needle rest

/-- Python `filename.replace('.pdf', '')`: delete every (left-to-right,
non-overlapping) occurrence of the four-character needle `.pdf`. -/
def stripDotPdf : List Char → List Char
  | '.' :: 'p' :: 'd' :: 'f' :: rest => stripDotPdf rest
  | c :: rest => c :: stripDotPdf rest
  | [] => []

/-- `len(s.split())`: number of maximal non-whitespace runs.  The flag
records whether the previous character was inside a word. -/
def wordCountAux : Bool → List Char → Nat
  | _, [] => 0
  | inWord, c :: rest =>
    if isSpaceChar c then wordCountAux false rest
    else if inWord then wordCountAux true rest
    else 1 + wordCountAux true rest

def pyWordCount (s : String) : Nat := wordCountAux false s.data

/-- The title-selection loop shared by `extract_with_pypdf2` (lines
164-172) and `extract_with_ocr` (lines 225-233): among the first 10
lines, the first whose stripped form has length strictly between 10 and
100, is not `isdigit`, and does not contain `"Page"`; otherwise the
fallback (`filename.replace('.pdf', '')`). -/
def pickTitle10 (lines : List String) (fallback : String) : String :=
  match (lines.take 10).find? (fun line =>
      let cl := pyStripS line
      decide (10 < cl.data.length) && decide (cl.data.length < 100) &&
      !pyIsDigit cl && !containsSub "Page".data cl.data) with
  | some line => pyStripS line
  | none => fallback

/-- The title-selection loop of `extract_with_docling` (lines 271-278):
among the first 5 lines, the first whose stripped, `'#'`-free, re-stripped
form has length strictly between 5 and 100; no digit or `"Page"` test. -/
def doclingLineTitle (line : String) : String :=
  pyStripS ⟨(pyStrip line.data).filter (fun c => !(c == '#'))⟩

def pickTitleDocling (lines : List String) (fallback : String) : String :=
  match (lines.take 5).find? (fun line =>
      let cl := doclingLineTitle line
      decide (5 < cl.data.length) && decide (cl.data.length < 100)) with
  | some line => doclingLineTitle line
  | none => fallback

/-- The capability flags probed at import time (source lines 30-74). -/
structure Caps where
  PYPDF2_AVAILABLE : Bool
  PYTESSERACT_AVAILABLE : Bool
  PDF2IMAGE_AVAILABLE : Bool
  DOCLING_AVAILABLE : Bool
  FITZ_AVAILABLE : Bool
  PIL_AVAILABLE : Bool

/-- Behaviour of the external PDF backends on one concrete document.
Each field gives the outcome of the corresponding backend call:
`nativePages` = `page.extract_text()` for each page of
`PdfReader(pdf_path).pages` (or the raised exception); `ocrPages` =
per-page `pytesseract.image_to_string` output over
`convert_from_path(pdf_path, dpi=300)` (or the raised exception);
`docling` = the markdown of `converter.convert(...)` together with
`len(result.document.pages)` when the document object has a `pages`
attribute (or the raised exception); `fitzPageCount` = `len(fitz.open(pdf_path))`;
`renderFirstPage` = the base64 encoding of the rendered, resized first
page (or the raised exception). -/
structure PdfDoc where
  nativePages : Except String (List String)
  ocrPages : Except String (List String)
  docling : Except String (String × Option Nat)
  fitzPageCount : Except String Nat
  renderFirstPage : Except String String

/-- The metadata dictionary of an extraction result. -/
structure PdfMetadata where
  word_count : Nat
  page_count : Nat
  extraction_method : String
  filename : String
  has_tables : Bool
  has_images : Bool
deriving DecidableEq, Repr

/-- A successful extraction result (the dictionary returned by one of the
three `extract_with_*` functions, minus the constant `success: True`
field, which the envelope carries). -/
structure ExtractionResult where
  method : String
  title : String
  content : String
  raw_text : String
  metadata : PdfMetadata
  extraction_confidence : ℚ
deriving DecidableEq, Repr

/-- `generate_pdf_preview_image` (lines 95-142): `none` when PyMuPDF or
PIL is unavailable, when opening fails, when the document has zero pages,
or when rendering raises; otherwise the data URI of the rendered first
page. -/
def generate_pdf_preview_image (caps : Caps) (d : PdfDoc) : Option String :=
  if !(caps.FITZ_AVAILABLE && caps.PIL_AVAILABLE) then none
  else
    match d.fitzPageCount with
    | .error _ => none
    | .ok n =>
      if n == 0 then none
      else
        match d.renderFirstPage with
        | .error _ => none
        | .ok b64 => some ("data:image/png;base64," ++ b64)

/-- One page's contribution to the native extraction text (lines
152-156): pages whose extracted text strips to empty contribute nothing;
the others contribute a `--- Page n ---` marker followed by the raw page
text. -/
def pageBlock (n : Nat) (p : String) : String :=
  if (pyStrip p.data).isEmpty then ""
  else "\n--- Page " ++ Nat.repr n ++ " ---\n" ++ p ++ "\n"

def nativeContentAux (n : Nat) : List String → String
  | [] => ""
  | p :: rest => pageBlock n p ++ nativeContentAux (n + 1) rest

/-- One page's contribution to the OCR text (lines 215-217); unlike the
native strategy, the appended page text is itself stripped. -/
def ocrPageBlock (n : Nat) (p : String) : String :=
  if (pyStrip p.data).isEmpty then ""
  else "\n--- Page " ++ Nat.repr n ++ " ---\n" ++ pyStripS p ++ "\n"

def ocrContentAux (n : Nat) : List String → String
  | [] => ""
  | p :: rest => ocrPageBlock n p ++ ocrContentAux (n + 1) rest

/-- Number of `--- Page n ---` markers the per-page loop appends: one per
page whose extracted text is non-empty after stripping (identical for the
native and OCR loops). -/
def pageMarkerCount : List String → Nat
  | [] => 0
  | p :: rest =>
    (if (pyStrip p.data).isEmpty then 0 else 1) + pageMarkerCount rest

/-- The result dictionary built by `extract_with_pypdf2` (lines 161-193)
once the extracted text is known to be non-empty. -/
def pypdf2Result (pages : List String) (filename : String) : ExtractionResult :=
  let tc := clean_text_for_database (nativeContentAux 1 pages)
  let title := pickTitle10 (pyLines tc) ⟨stripDotPdf filename.data⟩
  { method := "pypdf2"
    title := clean_text_for_database title
    content := pyStripS tc
    raw_text := pyStripS tc
    metadata := {
      word_count := pyWordCount tc
      page_count := pages.length
      extraction_method := "pypdf2_native"
      filename := filename
      has_tables := false
      has_images := false }
    extraction_confidence := (0.95 : ℚ) }

/-- `extract_with_pypdf2` (lines 144-197). -/
def extract_with_pypdf2 (d : PdfDoc) (filename : String) :
    Except String ExtractionResult :=
  match d.nativePages with
  | .error e => .error e
  | .ok pages =>
    if (pyStrip (nativeContentAux 1 pages).data).isEmpty then
      .error "No text found in PDF - may be scanned"
    else .ok (pypdf2Result pages filename)

/-- The result dictionary built by `extract_with_ocr` (lines 222-254)
once the recognized text is known to be non-empty. -/
def ocrResult (pages : List String) (filename : String) : ExtractionResult :=
  let tc := clean_text_for_database (ocrContentAux 1 pages)
  let title := pickTitle10 (pyLines tc) ⟨stripDotPdf filename.data⟩
  { method := "ocr_pytesseract"
    title := clean_text_for_database title
    content := pyStripS tc
    raw_text := pyStripS tc
    metadata := {
      word_count := pyWordCount tc
      page_count := pages.length
      extraction_method := "ocr_pytesseract"
      filename := filename
      has_tables := false
      has_images := false }
    extraction_confidence := (0.85 : ℚ) }

/-- `extract_with_ocr` (lines 199-258). -/
def extract_with_ocr (d : PdfDoc) (filename : String) :
    Except String ExtractionResult :=
  match d.ocrPages with
  | .error e => .error e
  | .ok pages =>
    if (pyStrip (ocrContentAux 1 pages).data).isEmpty then
      .error "No text extracted from PDF using OCR"
    else .ok (ocrResult pages filename)

/-- The result dictionary built by `extract_with_docling` (lines 268-299);
`page_count` falls back to 1 when the converted document has no `pages`
attribute. -/
def doclingResult (md : String) (pagesAttr : Option Nat) (filename : String) :
    ExtractionResult :=
  let content := clean_text_for_database md
  let title := pickTitleDocling (pyLines content) ⟨stripDotPdf filename.data⟩
  { method := "docling"
    title := clean_text_for_database title
    content := pyStripS content
    raw_text := pyStripS content
    metadata := {
      word_count := pyWordCount content
      page_count := pagesAttr.getD 1
      extraction_method := "docling"
      filename := filename
      has_tables := (pyLines content).any (fun line => line.data.contains '|')
      has_images := containsSub "![".data content.data }
    extraction_confidence := (0.90 : ℚ) }

/-- `extract_with_docling` (lines 260-303): unlike the other two
strategies, no emptiness check is performed on the converted text. -/
def extract_with_docling (d : PdfDoc) (filename : String) :
    Except String ExtractionResult :=
  match d.docling with
  | .error e => .error e
  | .ok (md, pagesAttr) => .ok (doclingResult md pagesAttr filename)

/-- The response envelope serialized by `jsonify`: a success discriminant
plus either the extraction fields (with an optional preview image) or an
error message. -/
structure Envelope where
  success : Bool
  error : Option String
  method : Option String
  title : Option String
  content : Option String
  raw_text : Option String
  metadata : Option PdfMetadata
  extraction_confidence : Option ℚ
  preview_image : Option String
deriving DecidableEq, Repr

/-- The success envelope (lines 372-376 etc.): the result dictionary with
`success: True`; the preview is attached only when it is truthy
(non-`None` and non-empty). -/
def mkSuccessEnvelope (r : ExtractionResult) (preview : Option String) :
    Envelope where
  success := true
  error := none
  method := some r.method
  title := some r.title
  content := some r.content
  raw_text := some r.raw_text
  metadata := some r.metadata
  extraction_confidence := some r.extraction_confidence
  preview_image :=
    match preview with
    | some p => if p.data.isEmpty then none else some p
    | none => none

/-- The terminal aggregated failure (lines 402-406). -/
def allFailedEnvelope : Envelope where
  success := false
  error := some "All extraction methods failed. PDF may be corrupted or unsupported format."
  method := none
  title := none
  content := none
  raw_text := none
  metadata := none
  extraction_confidence := none
  preview_image := none

/-- Strategy 3 of `extract_pdf` (lines 391-400) and the terminal failure. -/
def tryDocling (caps : Caps) (d : PdfDoc) (filename : String)
    (preview : Option String) : Envelope :=
  if caps.DOCLING_AVAILABLE then
    match extract_with_docling d filename with
    | .ok r => mkSuccessEnvelope r preview
    | .error _ => allFailedEnvelope
  else allFailedEnvelope

/-- Strategy 2 of `extract_pdf` (lines 380-389). -/
def tryOcr (caps : Caps) (d : PdfDoc) (filename : String)
    (preview : Option String) : Envelope :=
  if caps.PYTESSERACT_AVAILABLE && caps.PDF2IMAGE_AVAILABLE then
    match extract_with_ocr d filename with
    | .ok r => mkSuccessEnvelope r preview
    | .error _ => tryDocling caps d filename preview
  else tryDocling caps d filename preview

/-- `extract_pdf` from the point where the PDF file is on disk (lines
362-406): optional preview generation, then the three strategies in
order, each skipped when its capability is unavailable, each failure
caught and followed by the next strategy, first success returned
immediately. -/
def extract_pdf (caps : Caps) (d : PdfDoc) (filename : String)
    (generate_preview : Bool) : Envelope :=
  let preview :=
    if generate_preview then generate_pdf_preview_image caps d else none
  if caps.PYPDF2_AVAILABLE then
    match extract_with_pypdf2 d filename with
    | .ok r => mkSuccessEnvelope r preview
    | .error _ => tryOcr caps d filename preview
  else tryOcr caps d filename preview

/-- The ordered list of attempts the spec's StrategyChain prescribes:
each usable strategy's outcome, in the fixed priority order native, OCR,
structural. -/
def attempts (caps : Caps) (d : PdfDoc) (filename : String) :
    List (Except String ExtractionResult) :=
  (if caps.PYPDF2_AVAILABLE then [extract_with_pypdf2 d filename] else []) ++
  (if caps.PYTESSERACT_AVAILABLE && caps.PDF2IMAGE_AVAILABLE then
    [extract_with_ocr d filename] else []) ++
  (if caps.DOCLING_AVAILABLE then [extract_with_docling d filename] else [])

/-- First successful outcome of a list of attempts, if any. -/
def firstOk : List (Except String ExtractionResult) → Option ExtractionResult
  | [] => none
  | .ok r :: _ => some r
  | .error _ :: rest => firstOk rest

/-- The TitleHeuristic, following the spec's words (§4.5): scan the first
10 lines; select the first whose trimmed length is strictly between 10
and 100 characters, is not purely numeric, and does not contain the
literal substring `"Page"`; otherwise fall back to the filename with its
extension removed.  Defined for comparison with the source-derived title
computations. -/
def specTitle (lines : List String) (fallback : String) : String :=
  match (lines.take 10).find? (fun line =>
      let cl := pyStripS line
      decide (10 < cl.data.length) && decide (cl.data.length < 100) &&
      !pyIsDigit cl && !containsSub "Page".data cl.data) with
  | some line => pyStripS line
  | none => fallback

/-- Characters carried by a `PcState` (to be emitted if the pending match
fails); used to bound the characters `pcAux` can output. -/
def pcStateChars : PcState → List Char
  | .norm => []
  | .afterP p ws => p :: ws
  | .consume => []

/-- Is the first character absent or not whitespace? -/
def headNotSpace : List Char → Bool
  | [] => true
  | c :: _ => !isSpaceChar c

/-- Fixed points of whitespace collapsing: every whitespace character is
an ASCII space whose successor (if any) is not whitespace. -/
def wsNormal : List Char → Bool
  | [] => true
  | c :: rest =>
    (if isSpaceChar c then c == ' ' && headNotSpace rest else true) && wsNormal rest

/-- Every capability available (the intended production configuration). -/
def capsAll : Caps := ⟨true, true, true, true, true, true⟩

/-- A document whose native text layer extraction succeeds. -/
def docNative : PdfDoc where
  nativePages := .ok ["This is a fine test document line."]
  ocrPages := .error "ocr backend crashed"
  docling := .error "docling backend crashed"
  fitzPageCount := .ok 1
  renderFirstPage := .ok "IMGDATA"

/-- A document on which every strategy fails (empty native text layer,
crashing OCR and docling backends) while preview rendering succeeds. -/
def docAllFail : PdfDoc where
  nativePages := .ok [""]
  ocrPages := .error "ocr backend crashed"
  docling := .error "docling backend crashed"
  fitzPageCount := .ok 1
  renderFirstPage := .ok "IMGDATA"

/-- A document whose structural conversion yields a page-marker-looking
heading line. -/
def docDocling : PdfDoc where
  nativePages := .error "pypdf2 backend crashed"
  ocrPages := .error "ocr backend crashed"
  docling := .ok ("--- Page 1 ---", some 1)
  fitzPageCount := .ok 1
  renderFirstPage := .ok "IMGDATA"

/-- A document whose structural conversion yields a table-like line. -/
def docTables : PdfDoc where
  nativePages := .error "pypdf2 backend crashed"
  ocrPages := .error "ocr backend crashed"
  docling := .ok ("col a | col b", some 2)
  fitzPageCount := .ok 1
  renderFirstPage := .ok "IMGDATA"

/-- A document with one text-bearing page and one text-empty page for
both the native and the OCR backends. -/
def docMixedPages : PdfDoc where
  nativePages := .ok ["hello world native text", "  "]
  ocrPages := .ok ["hello world ocr text", ""]
  docling := .error "docling backend crashed"
  fitzPageCount := .ok 2
  renderFirstPage := .ok "IMGDATA"

/-! ### Lemmas about the sanitizer's building blocks -/

theorem mem_collapseWsFlag {c : Char} :
    ∀ (b : Bool) (l : List Char), c ∈ collapseWsFlag b l → c ∈ l ∨ c = ' ' := by
  intro b l
  induction l generalizing b with
  | nil => intro h; simp [collapseWsFlag] at h
  | cons a rest ih =>
    intro h
    rw [collapseWsFlag] at h
    by_cases ha : isSpaceChar a = true
    · rw [if_pos ha] at h
      cases b with
      | true =>
        rcases ih true h with h' | h'
        · exact Or.inl (List.mem_cons_of_mem a h')
        · exact Or.inr h'
      | false =>
        simp only [if_neg Bool.false_ne_true, List.mem_cons] at h
        rcases h with h' | h'
        · exact Or.inr h'
        · rcases ih true h' with h'' | h''
          · exact Or.inl (List.mem_cons_of_mem a h'')
          · exact Or.inr h''
    · rw [if_neg ha] at h
      rcases List.mem_cons.mp h with h' | h'
      · exact Or.inl (h' ▸ List.mem_cons_self a rest)
      · rcases ih false h' with h'' | h''
        · exact Or.inl (List.mem_cons_of_mem a h'')
        · exact Or.inr h''

theorem mem_pcAux {c : Char} :
    ∀ (st : PcState) (l : List Char), c ∈ pcAux st l → c ∈ pcStateChars st ∨ c ∈ l := by
  intro st l
  induction l generalizing st with
  | nil =>
    intro h
    cases st with
    | norm => simp [pcAux] at h
    | consume => simp [pcAux] at h
    | afterP p ws =>
      rcases List.mem_cons.mp h with h' | h'
      · exact Or.inl (h' ▸ List.mem_cons_self p ws)
      · exact Or.inl (List.mem_cons_of_mem p (List.mem_reverse.mp h'))
  | cons a rest ih =>
    intro h
    cases st with
    | norm =>
      rw [pcAux] at h
      by_cases ha : isTermPunct a = true
      · rw [if_pos ha] at h
        rcases ih _ h with h' | h'
        · rcases List.mem_cons.mp h' with h'' | h''
          · exact Or.inr (h'' ▸ List.mem_cons_self a rest)
          · simp at h''
        · exact Or.inr (List.mem_cons_of_mem a h')
      · rw [if_neg ha] at h
        rcases List.mem_cons.mp h with h' | h'
        · exact Or.inr (h' ▸ List.mem_cons_self a rest)
        · rcases ih _ h' with h'' | h''
          · simp [pcStateChars] at h''
          · exact Or.inr (List.mem_cons_of_mem a h'')
    | afterP p ws =>
      rw [pcAux] at h
      by_cases ha : isTermPunct a = true
      · rw [if_pos ha] at h
        rcases List.mem_cons.mp h with h' | h'
        · exact Or.inl (h' ▸ List.mem_cons_self p ws)
        · rcases ih _ h' with h'' | h''
          · simp [pcStateChars] at h''
          · exact Or.inr (List.mem_cons_of_mem a h'')
      · rw [if_neg ha] at h
        by_cases hs : isSpaceChar a = true
        · rw [if_pos hs] at h
          rcases ih _ h with h' | h'
          · rcases List.mem_cons.mp h' with h'' | h''
            · exact Or.inl (h'' ▸ List.mem_cons_self p ws)
            · rcases List.mem_cons.mp h'' with h3 | h3
              · exact Or.inr (h3 ▸ List.mem_cons_self a rest)
              · exact Or.inl (List.mem_cons_of_mem p h3)
          · exact Or.inr (List.mem_cons_of_mem a h')
        · rw [if_neg hs] at h
          rcases List.mem_cons.mp h with h' | h'
          · exact Or.inl (h' ▸ List.mem_cons_self p ws)
          · rcases List.mem_append.mp h' with h'' | h''
            · exact Or.inl (List.mem_cons_of_mem p (List.mem_reverse.mp h''))
            · rcases List.mem_cons.mp h'' with h3 | h3
              · exact Or.inr (h3 ▸ List.mem_cons_self a rest)
              · rcases ih _ h3 with h4 | h4
                · simp [pcStateChars] at h4
                · exact Or.inr (List.mem_cons_of_mem a h4)
    | consume =>
      rw [pcAux] at h
      by_cases ha : isTermPunct a = true
      · rw [if_pos ha] at h
        rcases ih _ h with h' | h'
        · simp [pcStateChars] at h'
        · exact Or.inr (List.mem_cons_of_mem a h')
      · rw [if_neg ha] at h
        rcases List.mem_cons.mp h with h' | h'
        · exact Or.inr (h' ▸ List.mem_cons_self a rest)
        · rcases ih _ h' with h'' | h''
          · simp [pcStateChars] at h''
          · exact Or.inr (List.mem_cons_of_mem a h'')

theorem mem_dwbpAux {c : Char} :
    ∀ (l pend : List Char), c ∈ dwbpAux pend l → c ∈ pend ∨ c ∈ l := by
  intro l
  induction l with
  | nil =>
    intro pend h
    exact Or.inl (List.mem_reverse.mp h)
  | cons a rest ih =>
    intro pend h
    rw [dwbpAux] at h
    by_cases hs : isSpaceChar a = true
    · rw [if_pos hs] at h
      rcases ih _ h with h' | h'
      · rcases List.mem_cons.mp h' with h'' | h''
        · exact Or.inr (h'' ▸ List.mem_cons_self a rest)
        · exact Or.inl h''
      · exact Or.inr (List.mem_cons_of_mem a h')
    · rw [if_neg hs] at h
      by_cases hp : (isPrePunct a && !pend.isEmpty) = true
      · rw [if_pos hp] at h
        rcases List.mem_cons.mp h with h' | h'
        · exact Or.inr (h' ▸ List.mem_cons_self a rest)
        · rcases ih _ h' with h'' | h''
          · simp at h''
          · exact Or.inr (List.mem_cons_of_mem a h'')
      · rw [if_neg hp] at h
        rcases List.mem_append.mp h with h' | h'
        · exact Or.inl (List.mem_reverse.mp h')
        · rcases List.mem_cons.mp h' with h'' | h''
          · exact Or.inr (h'' ▸ List.mem_cons_self a rest)
          · rcases ih _ h'' with h3 | h3
            · simp at h3
            · exact Or.inr (List.mem_cons_of_mem a h3)

theorem mem_dropTrailing {c : Char} :
    ∀ (l : List Char), c ∈ dropTrailing l → c ∈ l := by
  intro l
  induction l with
  | nil => intro h; simp [dropTrailing] at h
  | cons a rest ih =>
    intro h
    rw [dropTrailing] at h
    cases hr : dropTrailing rest with
    | nil =>
      rw [hr] at h
      by_cases hs : isSpaceChar a = true
      · rw [if_pos hs] at h; simp at h
      · rw [if_neg hs] at h
        exact (List.mem_singleton.mp h) ▸ List.mem_cons_self a rest
    | cons b r =>
      rw [hr] at h
      rcases List.mem_cons.mp h with h' | h'
      · exact h' ▸ List.mem_cons_self a rest
      · exact List.mem_cons_of_mem a (ih (hr ▸ h'))

theorem mem_pyStrip {c : Char} {l : List Char} (h : c ∈ pyStrip l) : c ∈ l :=
  (List.dropWhile_sublist isSpaceChar).mem (mem_dropTrailing _ h)

theorem mem_removePhase {c : Char} {l : List Char} (h : c ∈ removePhase l) :
    c ∈ l ∧ keepChar c = true := by
  simp only [removePhase, List.mem_filter] at h
  obtain ⟨⟨⟨⟨⟨h0, h1⟩, h2⟩, h3⟩, h4⟩, h5⟩ := h
  exact ⟨h0, by simp [keepChar, h1, h2, h3, h4, h5]⟩

theorem removePhase_eq_self {l : List Char}
    (h : ∀ c ∈ l, keepChar c = true) : removePhase l = l := by
  have hcomp : ∀ c ∈ l, (!(c.toNat == 0x00)) = true ∧ (!isCtlChar c) = true ∧
      (!(c.toNat == 0xFFFD)) = true ∧ (!isPuaChar c) = true ∧ (!isSpecialsChar c) = true := by
    intro c hc
    have := h c hc
    simp only [keepChar, Bool.and_eq_true] at this
    tauto
  unfold removePhase
  rw [List.filter_eq_self.mpr (fun c hc => (hcomp c hc).1)]
  rw [List.filter_eq_self.mpr (fun c hc => (hcomp c hc).2.1)]
  rw [List.filter_eq_self.mpr (fun c hc => (hcomp c hc).2.2.1)]
  rw [List.filter_eq_self.mpr (fun c hc => (hcomp c hc).2.2.2.1)]
  rw [List.filter_eq_self.mpr (fun c hc => (hcomp c hc).2.2.2.2)]

theorem wsNormal_tail {a : Char} {rest : List Char}
    (h : wsNormal (a :: rest) = true) : wsNormal rest = true := by
  rw [wsNormal, Bool.and_eq_true] at h
  exact h.2

theorem wsNormal_dropWhile {l : List Char} (h : wsNormal l = true) :
    wsNormal (l.dropWhile isSpaceChar) = true := by
  induction l with
  | nil => exact h
  | cons a rest ih =>
    by_cases ha : isSpaceChar a = true
    · rw [List.dropWhile_cons_of_pos ha]
      exact ih (wsNormal_tail h)
    · rwa [List.dropWhile_cons_of_neg ha]

theorem headNotSpace_dropWhile (l : List Char) :
    headNotSpace (l.dropWhile isSpaceChar) = true := by
  induction l with
  | nil => rfl
  | cons a rest ih =>
    by_cases ha : isSpaceChar a = true
    · rw [List.dropWhile_cons_of_pos ha]; exact ih
    · rw [List.dropWhile_cons_of_neg ha, headNotSpace]
      simp only [Bool.not_eq_true'] at ha
      simp [ha]

theorem collapseWsFlag_of_wsNormal {l : List Char} (h : wsNormal l = true) :
    collapseWsFlag false l = l ∧
      (headNotSpace l = true → collapseWsFlag true l = l) := by
  induction l with
  | nil => exact ⟨rfl, fun _ => rfl⟩
  | cons a rest ih =>
    have ih' := ih (wsNormal_tail h)
    by_cases ha : isSpaceChar a = true
    · rw [wsNormal, Bool.and_eq_true, if_pos ha, Bool.and_eq_true] at h
      obtain ⟨⟨ha', hrest⟩, hw⟩ := h
      have haeq : a = ' ' := by
        have := beq_iff_eq.mp ha'
        exact this
      constructor
      · rw [collapseWsFlag, if_pos ha, if_neg Bool.false_ne_true,
          (ih (by exact hw)).2 hrest, haeq]
      · intro hh
        rw [headNotSpace] at hh
        simp [ha] at hh
    · constructor
      · rw [collapseWsFlag, if_neg ha, ih'.1]
      · intro _
        rw [collapseWsFlag, if_neg ha, ih'.1]

theorem headNotSpace_collapseWsFlag_true (l : List Char) :
    headNotSpace (collapseWsFlag true l) = true := by
  induction l with
  | nil => rfl
  | cons a rest ih =>
    by_cases ha : isSpaceChar a = true
    · rw [collapseWsFlag, if_pos ha, if_pos rfl]
      exact ih
    · rw [collapseWsFlag, if_neg ha, headNotSpace]
      simp only [Bool.not_eq_true'] at ha
      simp [ha]

theorem wsNormal_collapseWsFlag (l : List Char) :
    ∀ b, wsNormal (collapseWsFlag b l) = true := by
  induction l with
  | nil => intro b; rfl
  | cons a rest ih =>
    intro b
    by_cases ha : isSpaceChar a = true
    · cases b with
      | true =>
        rw [collapseWsFlag, if_pos ha, if_pos rfl]
        exact ih true
      | false =>
        rw [collapseWsFlag, if_pos ha, if_neg Bool.false_ne_true, wsNormal]
        have hsp : isSpaceChar ' ' = true := by decide
        rw [if_pos hsp]
        simp only [Bool.and_eq_true]
        exact ⟨⟨rfl, headNotSpace_collapseWsFlag_true rest⟩, ih true⟩
    · rw [collapseWsFlag, if_neg ha, wsNormal, if_neg ha]
      simp only [Bool.true_and]
      exact ih false

theorem headNotSpace_dropTrailing {l : List Char}
    (h : headNotSpace l = true) : headNotSpace (dropTrailing l) = true := by
  cases l with
  | nil => rfl
  | cons a rest =>
    rw [headNotSpace] at h
    rw [dropTrailing]
    cases dropTrailing rest with
    | nil =>
      simp only [Bool.not_eq_true'] at h
      rw [if_neg (by simp [h])]
      rw [headNotSpace]
      simp [h]
    | cons b r => rw [headNotSpace]; exact h

theorem wsNormal_dropTrailing {l : List Char} (h : wsNormal l = true) :
    wsNormal (dropTrailing l) = true := by
  induction l with
  | nil => exact h
  | cons a rest ih =>
    have hw := wsNormal_tail h
    rw [dropTrailing]
    cases hr : dropTrailing rest with
    | nil =>
      by_cases ha : isSpaceChar a = true
      · rw [if_pos ha]; rfl
      · rw [if_neg ha, wsNormal, if_neg ha]
        simp [wsNormal]
    | cons b r =>
      by_cases ha : isSpaceChar a = true
      · rw [wsNormal, Bool.and_eq_true, if_pos ha, Bool.and_eq_true] at h
        obtain ⟨⟨ha', hrest⟩, _⟩ := h
        rw [wsNormal, if_pos ha]
        simp only [Bool.and_eq_true]
        refine ⟨⟨ha', ?_⟩, ?_⟩
        · rw [← hr]; exact headNotSpace_dropTrailing hrest
        · rw [← hr]; exact ih hw
      · rw [wsNormal, if_neg ha]
        simp only [Bool.true_and]
        rw [← hr]; exact ih hw

theorem dropTrailing_idem (l : List Char) :
    dropTrailing (dropTrailing l) = dropTrailing l := by
  induction l with
  | nil => rfl
  | cons a rest ih =>
    rw [dropTrailing]
    cases hr : dropTrailing rest with
    | nil =>
      by_cases ha : isSpaceChar a = true
      · rw [if_pos ha]; rfl
      · rw [if_neg ha, dropTrailing, dropTrailing, if_neg ha]
    | cons b r =>
      rw [dropTrailing]
      have : dropTrailing (b :: r) = b :: r := by rw [← hr, ih, hr]
      rw [this]

theorem dropWhile_eq_self_of_headNotSpace {l : List Char}
    (h : headNotSpace l = true) : l.dropWhile isSpaceChar = l := by
  cases l with
  | nil => rfl
  | cons a rest =>
    rw [headNotSpace] at h
    simp only [Bool.not_eq_true'] at h
    exact List.dropWhile_cons_of_neg (by simp [h])

theorem headNotSpace_pyStrip (l : List Char) :
    headNotSpace (pyStrip l) = true :=
  headNotSpace_dropTrailing (headNotSpace_dropWhile l)

theorem pyStrip_idem (l : List Char) : pyStrip (pyStrip l) = pyStrip l := by
  unfold pyStrip
  rw [dropWhile_eq_self_of_headNotSpace
    (headNotSpace_dropTrailing (headNotSpace_dropWhile l))]
  exact dropTrailing_idem _

theorem wsNormal_pyStrip {l : List Char} (h : wsNormal l = true) :
    wsNormal (pyStrip l) = true :=
  wsNormal_dropTrailing (wsNormal_dropWhile h)

theorem collapseWs_pyStrip_collapseWs (l : List Char) :
    collapseWs (pyStrip (collapseWs l)) = pyStrip (collapseWs l) :=
  (collapseWsFlag_of_wsNormal
    (wsNormal_pyStrip (wsNormal_collapseWsFlag l false))).1

/-! ### The sanitizer on punctuation-free input -/

theorem isTermPunct_false_of_isPrePunct_false {c : Char}
    (h : isPrePunct c = false) : isTermPunct c = false := by
  unfold isPrePunct at h
  unfold isTermPunct
  simp only [Bool.or_eq_false_iff] at h ⊢
  tauto

theorem pcAux_norm_id {l : List Char}
    (h : ∀ c ∈ l, isTermPunct c = false) : pcAux .norm l = l := by
  induction l with
  | nil => rfl
  | cons a rest ih =>
    rw [pcAux, if_neg (by simp [h a (List.mem_cons_self a rest)])]
    rw [ih (fun c hc => h c (List.mem_cons_of_mem a hc))]

theorem dwbpAux_of_noPunct {l : List Char}
    (h : ∀ c ∈ l, isPrePunct c = false) :
    ∀ pend, dwbpAux pend l = pend.reverse ++ l := by
  induction l with
  | nil => intro pend; simp [dwbpAux]
  | cons a rest ih =>
    intro pend
    have ha := h a (List.mem_cons_self a rest)
    have hrest := fun c hc => h c (List.mem_cons_of_mem a hc)
    by_cases hs : isSpaceChar a = true
    · rw [dwbpAux, if_pos hs, ih hrest]
      simp
    · rw [dwbpAux, if_neg hs, if_neg (by simp [ha]), ih hrest]
      simp

/-- On punctuation-free input, the sanitizer is exactly
filter-collapse-trim. -/
theorem clean_eq_of_noPunct (s : String)
    (h : ∀ c ∈ s.data, isPrePunct c = false) :
    clean_text_for_database s = ⟨pyStrip (collapseWs (removePhase s.data))⟩ := by
  unfold clean_text_for_database
  by_cases he : s.data.isEmpty
  · rw [if_pos he]
    rw [List.isEmpty_iff] at he
    rw [he]
    rfl
  · rw [if_neg he]
    have hz : ∀ c ∈ removePhase s.data, isPrePunct c = false :=
      fun c hc => h c (mem_removePhase hc).1
    have hcw : ∀ c ∈ collapseWs (removePhase s.data), isPrePunct c = false := by
      intro c hc
      rcases mem_collapseWsFlag false _ hc with h' | h'
      · exact hz c h'
      · rw [h']; decide
    rw [show punctCollapse (collapseWs (removePhase s.data)) =
        collapseWs (removePhase s.data) from
      pcAux_norm_id (fun c hc => isTermPunct_false_of_isPrePunct_false (hcw c hc))]
    rw [show dropWsBeforePunct (collapseWs (removePhase s.data)) =
        collapseWs (removePhase s.data) from dwbpAux_of_noPunct hcw []]

/-- The components of `keepChar`. -/
theorem keepChar_components {c : Char} (h : keepChar c = true) :
    (c.toNat == 0x00) = false ∧ isCtlChar c = false ∧
    (c.toNat == 0xFFFD) = false ∧ isPuaChar c = false ∧
    isSpecialsChar c = false := by
  simp only [keepChar, Bool.and_eq_true, Bool.not_eq_true'] at h
  tauto

/-- The sanitizer's output is a fixed point of `str.strip()` (the
sanitizer itself ends with a trim). -/
theorem pyStripS_clean (s : String) :
    pyStripS (clean_text_for_database s) = clean_text_for_database s := by
  unfold clean_text_for_database
  by_cases he : s.data.isEmpty
  · rw [if_pos he]; rfl
  · rw [if_neg he]
    show (⟨pyStrip (pyStrip
      (dropWsBeforePunct (punctCollapse (collapseWs (removePhase s.data)))))⟩ : String) = _
    rw [pyStrip_idem]

/-- `C1` (counterexample): the sanitizer is not idempotent.  On the input
`".. ."` one pass yields `".."` (the second `.` loses its preceding
space and the first two dots collapse), and a second pass collapses the
remaining dot pair to `"."`. -/
theorem clean_text_not_idempotent_cex :
    clean_text_for_database (clean_text_for_database ".. .") ≠
      clean_text_for_database ".. ." := by decide

/-- `C1` (amended): the sanitizer is idempotent on every input string
that contains none of the punctuation characters `.`, `!`, `?`, `,`,
`:`, `;` (the classes of the repeated-punctuation and
space-before-punctuation substitutions, whose interaction breaks
idempotence in general). -/
theorem clean_text_idempotent_of_noPunct (s : String)
    (h : ∀ c ∈ s.data, isPrePunct c = false) :
    clean_text_for_database (clean_text_for_database s) =
      clean_text_for_database s := by
  have h1 := clean_eq_of_noPunct s h
  have hdata : (clean_text_for_database s).data
      = pyStrip (collapseWs (removePhase s.data)) := by rw [h1]
  have hmem : ∀ c ∈ (clean_text_for_database s).data,
      keepChar c = true ∧ isPrePunct c = false := by
    intro c hc
    rw [hdata] at hc
    have hc2 := mem_pyStrip hc
    rcases mem_collapseWsFlag false _ hc2 with h' | h'
    · obtain ⟨hmem', hkeep⟩ := mem_removePhase h'
      exact ⟨hkeep, h c hmem'⟩
    · rw [h']; exact ⟨by decide, by decide⟩
  have h2 := clean_eq_of_noPunct _ (fun c hc => (hmem c hc).2)
  rw [h2, removePhase_eq_self (fun c hc => (hmem c hc).1), hdata,
    collapseWs_pyStrip_collapseWs, pyStrip_idem, h1]

/-- Witness for the amended `C1` at the concrete punctuation-free input
`"hello  world"`. -/
theorem clean_text_idempotent_of_noPunct_witness :
    clean_text_for_database (clean_text_for_database "hello  world") =
      clean_text_for_database "hello  world" :=
  clean_text_idempotent_of_noPunct "hello  world" (by decide)

/-- `C7`: for every input string, every character of the sanitizer's
output is outside all five removed classes: it is not NUL, not a control
character in `\x01`-`\x08`, `\x0B`, `\x0C`, `\x0E`-`\x1F`, `\x7F`, not
the replacement character U+FFFD, not in the private use area
U+E000-U+F8FF, and not in the specials block U+FFF0-U+FFFF. -/
theorem sanitizer_output_clean (s : String) (c : Char)
    (h : c ∈ (clean_text_for_database s).data) :
    (c.toNat == 0x00) = false ∧ isCtlChar c = false ∧
    (c.toNat == 0xFFFD) = false ∧ isPuaChar c = false ∧
    isSpecialsChar c = false := by
  unfold clean_text_for_database at h
  by_cases he : s.data.isEmpty
  · rw [if_pos he] at h
    simp at h
  · rw [if_neg he] at h
    have h1 : c ∈ dropWsBeforePunct (punctCollapse (collapseWs (removePhase s.data))) :=
      mem_pyStrip h
    have h2 : c ∈ punctCollapse (collapseWs (removePhase s.data)) := by
      rcases mem_dwbpAux _ _ h1 with h' | h'
      · simp at h'
      · exact h'
    have h3 : c ∈ collapseWs (removePhase s.data) := by
      rcases mem_pcAux _ _ h2 with h' | h'
      · simp [pcStateChars] at h'
      · exact h'
    rcases mem_collapseWsFlag false _ h3 with h' | h'
    · exact keepChar_components (mem_removePhase h').2
    · rw [h']
      refine ⟨by decide, by decide, by decide, by decide, by decide⟩

/-- Witness for `C7` at the concrete input `"a\x00b"` and its surviving
character `a`. -/
theorem sanitizer_output_clean_witness :
    (('a'.toNat == 0x00) = false ∧ isCtlChar 'a' = false ∧
    ('a'.toNat == 0xFFFD) = false ∧ isPuaChar 'a' = false ∧
    isSpecialsChar 'a' = false) :=
  sanitizer_output_clean "a\x00b" 'a' (by decide)

/-! ### The strategy chain -/

/-- Inversion for a successful native extraction. -/
theorem extract_with_pypdf2_ok {d : PdfDoc} {fn : String}
    {r : ExtractionResult} (h : extract_with_pypdf2 d fn = .ok r) :
    ∃ pages, d.nativePages = .ok pages ∧
      (pyStrip (nativeContentAux 1 pages).data).isEmpty = false ∧
      r = pypdf2Result pages fn := by
  unfold extract_with_pypdf2 at h
  split at h
  · exact absurd h (by simp)
  · rename_i pages heq
    split at h
    · exact absurd h (by simp)
    · rename_i hne
      refine ⟨pages, heq, by simpa using hne, ?_⟩
      injection h with h'
      exact h'.symm

/-- Inversion for a successful OCR extraction. -/
theorem extract_with_ocr_ok {d : PdfDoc} {fn : String}
    {r : ExtractionResult} (h : extract_with_ocr d fn = .ok r) :
    ∃ pages, d.ocrPages = .ok pages ∧
      (pyStrip (ocrContentAux 1 pages).data).isEmpty = false ∧
      r = ocrResult pages fn := by
  unfold extract_with_ocr at h
  split at h
  · exact absurd h (by simp)
  · rename_i pages heq
    split at h
    · exact absurd h (by simp)
    · rename_i hne
      refine ⟨pages, heq, by simpa using hne, ?_⟩
      injection h with h'
      exact h'.symm

/-- Inversion for a successful docling extraction. -/
theorem extract_with_docling_ok {d : PdfDoc} {fn : String}
    {r : ExtractionResult} (h : extract_with_docling d fn = .ok r) :
    ∃ md pagesAttr, d.docling = .ok (md, pagesAttr) ∧
      r = doclingResult md pagesAttr fn := by
  unfold extract_with_docling at h
  split at h
  · exact absurd h (by simp)
  · rename_i md pagesAttr heq
    refine ⟨md, pagesAttr, heq, ?_⟩
    injection h with h'
    exact h'.symm

/-- The chain of `extract_pdf` computes exactly "first success among the
usable strategies, in order, else the aggregated failure". -/
theorem extract_pdf_eq_chain (caps : Caps) (d : PdfDoc) (fn : String)
    (gp : Bool) :
    extract_pdf caps d fn gp =
      match firstOk (attempts caps d fn) with
      | some r => mkSuccessEnvelope r
          (if gp then generate_pdf_preview_image caps d else none)
      | none => allFailedEnvelope := by
  cases hp : caps.PYPDF2_AVAILABLE <;>
  cases ho : caps.PYTESSERACT_AVAILABLE && caps.PDF2IMAGE_AVAILABLE <;>
  cases hd : caps.DOCLING_AVAILABLE <;>
  cases h1 : extract_with_pypdf2 d fn <;>
  cases h2 : extract_with_ocr d fn <;>
  cases h3 : extract_with_docling d fn <;>
  simp [extract_pdf, tryOcr, tryDocling, attempts, firstOk, hp, ho, hd, h1, h2, h3]

/-- All pages whose text strips to empty produce an empty concatenation. -/
theorem nativeContentAux_empty {pages : List String}
    (h : ∀ p ∈ pages, (pyStrip p.data).isEmpty = true) :
    ∀ n, nativeContentAux n pages = "" := by
  induction pages with
  | nil => intro n; rfl
  | cons p rest ih =>
    intro n
    rw [nativeContentAux, pageBlock, if_pos (h p (List.mem_cons_self p rest)),
      ih (fun q hq => h q (List.mem_cons_of_mem p hq)) (n + 1)]
    rfl

/-- `C2`: the extraction chain tries native, then OCR, then structural,
skipping strategies whose capability flag is off; strategy failures are
non-fatal; the first success is returned immediately; if every usable
strategy fails (or none is usable) the aggregated failure envelope is
returned.  Moreover the native extractor does fail (rather than succeed
vacuously) on a document whose pages all strip to empty text. -/
theorem extraction_chain_first_success :
    (∀ (caps : Caps) (d : PdfDoc) (fn : String) (gp : Bool),
      extract_pdf caps d fn gp =
        match firstOk (attempts caps d fn) with
        | some r => mkSuccessEnvelope r
            (if gp then generate_pdf_preview_image caps d else none)
        | none => allFailedEnvelope) ∧
    (∀ (d : PdfDoc) (fn : String) (pages : List String),
      d.nativePages = .ok pages →
      (∀ p ∈ pages, (pyStrip p.data).isEmpty = true) →
      extract_with_pypdf2 d fn = .error "No text found in PDF - may be scanned") := by
  constructor
  · exact extract_pdf_eq_chain
  · intro d fn pages hnp hempty
    unfold extract_with_pypdf2
    rw [hnp]
    show (if (pyStrip (nativeContentAux 1 pages).data).isEmpty = true then
        Except.error "No text found in PDF - may be scanned"
      else Except.ok (pypdf2Result pages fn)) = _
    rw [nativeContentAux_empty hempty 1]
    rfl

/-- Witness for `C2`: on `docAllFail` with all capabilities available the
chain returns the aggregated failure (native fails on empty text, the
other backends crash), and the native extractor fails with the exact
"may be scanned" error. -/
theorem extraction_chain_first_success_witness :
    (extract_pdf capsAll docAllFail "scan.pdf" true =
      match firstOk (attempts capsAll docAllFail "scan.pdf") with
      | some r => mkSuccessEnvelope r
          (if true then generate_pdf_preview_image capsAll docAllFail else none)
      | none => allFailedEnvelope) ∧
    extract_with_pypdf2 docAllFail "scan.pdf" =
      .error "No text found in PDF - may be scanned" :=
  ⟨extraction_chain_first_success.1 capsAll docAllFail "scan.pdf" true,
    extraction_chain_first_success.2 docAllFail "scan.pdf" [""] rfl (by decide)⟩

/-- `C3`: when every usable strategy fails, the envelope has
`success = false`, the fixed non-empty aggregated error message, none of
the extraction fields, and no preview image (even though preview
generation may have succeeded). -/
theorem all_strategies_failed_envelope (caps : Caps) (d : PdfDoc)
    (fn : String) (gp : Bool)
    (h : firstOk (attempts caps d fn) = none) :
    (extract_pdf caps d fn gp).success = false ∧
    (extract_pdf caps d fn gp).error =
      some "All extraction methods failed. PDF may be corrupted or unsupported format." ∧
    "All extraction methods failed. PDF may be corrupted or unsupported format." ≠ "" ∧
    (extract_pdf caps d fn gp).method = none ∧
    (extract_pdf caps d fn gp).title = none ∧
    (extract_pdf caps d fn gp).content = none ∧
    (extract_pdf caps d fn gp).raw_text = none ∧
    (extract_pdf caps d fn gp).metadata = none ∧
    (extract_pdf caps d fn gp).extraction_confidence = none ∧
    (extract_pdf caps d fn gp).preview_image = none := by
  rw [extract_pdf_eq_chain, h]
  refine ⟨rfl, rfl, by decide, rfl, rfl, rfl, rfl, rfl, rfl, rfl⟩

/-- Witness for `C3` on `docAllFail` (whose preview generation succeeds
yet is discarded). -/
theorem all_strategies_failed_envelope_witness :
    (generate_pdf_preview_image capsAll docAllFail =
      some "data:image/png;base64,IMGDATA") ∧
    (extract_pdf capsAll docAllFail "scan.pdf" true).success = false ∧
    (extract_pdf capsAll docAllFail "scan.pdf" true).preview_image = none :=
  ⟨by decide,
    (all_strategies_failed_envelope capsAll docAllFail "scan.pdf" true (by decide)).1,
    (all_strategies_failed_envelope capsAll docAllFail "scan.pdf" true (by decide)).2.2.2.2.2.2.2.2.2⟩

/-- `C5` (counterexample): a successful native extraction carries the
fixed confidence 0.95 but its method tag is `"pypdf2"`, not `"native"`
as the claim states (the code's tags are `pypdf2`, `ocr_pytesseract`,
`docling`). -/
theorem method_tag_cex :
    (extract_pdf capsAll docNative "report.pdf" false).extraction_confidence =
      some (0.95 : ℚ) ∧
    (extract_pdf capsAll docNative "report.pdf" false).method ≠ some "native" :=
  ⟨rfl, by decide⟩

/-- `C5` (amended): every success result carries the fixed per-strategy
confidence (0.95 native, 0.85 OCR, 0.90 structural) and the fixed
per-strategy method tag, which is `"pypdf2"`, `"ocr_pytesseract"`,
`"docling"` respectively; neither is computed from the document. -/
theorem confidence_and_method_constants :
    (∀ (d : PdfDoc) (fn : String) (r : ExtractionResult),
      extract_with_pypdf2 d fn = .ok r →
      r.extraction_confidence = (0.95 : ℚ) ∧ r.method = "pypdf2") ∧
    (∀ (d : PdfDoc) (fn : String) (r : ExtractionResult),
      extract_with_ocr d fn = .ok r →
      r.extraction_confidence = (0.85 : ℚ) ∧ r.method = "ocr_pytesseract") ∧
    (∀ (d : PdfDoc) (fn : String) (r : ExtractionResult),
      extract_with_docling d fn = .ok r →
      r.extraction_confidence = (0.90 : ℚ) ∧ r.method = "docling") := by
  refine ⟨?_, ?_, ?_⟩
  · intro d fn r h
    obtain ⟨pages, -, -, hr⟩ := extract_with_pypdf2_ok h
    rw [hr]
    exact ⟨rfl, rfl⟩
  · intro d fn r h
    obtain ⟨pages, -, -, hr⟩ := extract_with_ocr_ok h
    rw [hr]
    exact ⟨rfl, rfl⟩
  · intro d fn r h
    obtain ⟨md, pagesAttr, -, hr⟩ := extract_with_docling_ok h
    rw [hr]
    exact ⟨rfl, rfl⟩

/-- Witness for the amended `C5` on a concrete successful native
extraction. -/
theorem confidence_and_method_constants_witness :
    (pypdf2Result ["This is a fine test document line."] "report.pdf").extraction_confidence
        = (0.95 : ℚ) ∧
    (pypdf2Result ["This is a fine test document line."] "report.pdf").method
        = "pypdf2" :=
  confidence_and_method_constants.1 docNative "report.pdf" _ rfl

/-- `C6`: preview generation yields `none` (rather than an error) when
rendering capability is missing, when opening the document fails, when
the document has zero pages, or when rendering the first page fails; and
the success discriminant of the overall response does not depend on the
preview-rendering capabilities or on the preview-related behaviour of
the document. -/
theorem preview_failure_nonfatal :
    (∀ (caps : Caps) (d : PdfDoc),
      generate_pdf_preview_image caps { d with fitzPageCount := .ok 0 } = none) ∧
    (∀ (caps : Caps) (d : PdfDoc) (e : String),
      generate_pdf_preview_image caps { d with fitzPageCount := .error e } = none) ∧
    (∀ (caps : Caps) (d : PdfDoc) (e : String),
      generate_pdf_preview_image caps { d with renderFirstPage := .error e } = none) ∧
    (∀ (caps : Caps) (d : PdfDoc),
      generate_pdf_preview_image { caps with FITZ_AVAILABLE := false } d = none) ∧
    (∀ (caps : Caps) (d : PdfDoc),
      generate_pdf_preview_image { caps with PIL_AVAILABLE := false } d = none) ∧
    (∀ (caps : Caps) (d : PdfDoc) (fn : String) (gp v w : Bool)
      (x : Except String Nat) (y : Except String String),
      (extract_pdf { caps with FITZ_AVAILABLE := v, PIL_AVAILABLE := w }
        { d with fitzPageCount := x, renderFirstPage := y } fn gp).success =
      (extract_pdf caps d fn gp).success) := by
  refine ⟨?_, ?_, ?_, ?_, ?_, ?_⟩
  · intro caps d
    unfold generate_pdf_preview_image
    cases hc : (caps.FITZ_AVAILABLE && caps.PIL_AVAILABLE) <;> simp [hc]
  · intro caps d e
    unfold generate_pdf_preview_image
    cases hc : (caps.FITZ_AVAILABLE && caps.PIL_AVAILABLE) <;> simp [hc]
  · intro caps d e
    unfold generate_pdf_preview_image
    cases hc : (caps.FITZ_AVAILABLE && caps.PIL_AVAILABLE) <;> simp [hc]
    cases hn : d.fitzPageCount with
    | error e' => rfl
    | ok n =>
      cases hz : (n == 0) <;> simp [hz]
  · intro caps d
    unfold generate_pdf_preview_image
    simp
  · intro caps d
    unfold generate_pdf_preview_image
    simp
  · intro caps d fn gp v w x y
    rw [extract_pdf_eq_chain, extract_pdf_eq_chain]
    have hatt : attempts { caps with FITZ_AVAILABLE := v, PIL_AVAILABLE := w }
        { d with fitzPageCount := x, renderFirstPage := y } fn =
        attempts caps d fn := rfl
    rw [hatt]
    cases firstOk (attempts caps d fn) <;> rfl

/-- `C4` (counterexample): the structural (docling) strategy does not use
the 10-100/non-numeric/no-"Page" heuristic.  On converted markdown
`"--- Page 1 ---"` it selects that very line as title (length 14 > 5,
no digit or "Page" test), whereas the claimed heuristic rejects it (it
contains "Page") and falls back to the filename without extension. -/
theorem title_heuristic_docling_cex :
    extract_with_docling docDocling "doc.pdf" =
      .ok (doclingResult "--- Page 1 ---" (some 1) "doc.pdf") ∧
    (doclingResult "--- Page 1 ---" (some 1) "doc.pdf").title = "--- Page 1 ---" ∧
    (doclingResult "--- Page 1 ---" (some 1) "doc.pdf").content = "--- Page 1 ---" ∧
    specTitle (pyLines (doclingResult "--- Page 1 ---" (some 1) "doc.pdf").content)
        ⟨stripDotPdf "doc.pdf".data⟩ = "doc" ∧
    (doclingResult "--- Page 1 ---" (some 1) "doc.pdf").title ≠
      specTitle (pyLines (doclingResult "--- Page 1 ---" (some 1) "doc.pdf").content)
        ⟨stripDotPdf "doc.pdf".data⟩ :=
  ⟨rfl, by decide, by decide, by decide, by decide⟩

/-- `C4` (amended): for the native and OCR strategies the title is the
(re-sanitized) first of the first 10 lines of the sanitized content
whose trimmed length is strictly between 10 and 100, is not purely
numeric and does not contain `"Page"`, with the filename minus `.pdf`
as fallback — and the ACME example selects the expected line; the
structural strategy instead uses its own rule: the first of the first 5
lines whose trimmed, `'#'`-free form has length strictly between 5 and
100, same fallback. -/
theorem title_heuristic_amended :
    (∀ (d : PdfDoc) (fn : String) (r : ExtractionResult),
      extract_with_pypdf2 d fn = .ok r →
      r.title = clean_text_for_database
        (specTitle (pyLines r.content) ⟨stripDotPdf fn.data⟩)) ∧
    (∀ (d : PdfDoc) (fn : String) (r : ExtractionResult),
      extract_with_ocr d fn = .ok r →
      r.title = clean_text_for_database
        (specTitle (pyLines r.content) ⟨stripDotPdf fn.data⟩)) ∧
    (∀ (d : PdfDoc) (fn : String) (r : ExtractionResult),
      extract_with_docling d fn = .ok r →
      r.title = clean_text_for_database
        (pickTitleDocling (pyLines r.content) ⟨stripDotPdf fn.data⟩)) ∧
    (∀ fb : String,
      specTitle ["1", "ACME QUARTERLY REPORT 2024", "--- Page 1 ---"] fb =
        "ACME QUARTERLY REPORT 2024") := by
  refine ⟨?_, ?_, ?_, ?_⟩
  · intro d fn r h
    obtain ⟨pages, -, -, hr⟩ := extract_with_pypdf2_ok h
    rw [hr]
    show clean_text_for_database (pickTitle10
        (pyLines (clean_text_for_database (nativeContentAux 1 pages)))
        ⟨stripDotPdf fn.data⟩) =
      clean_text_for_database (specTitle
        (pyLines (pyStripS (clean_text_for_database (nativeContentAux 1 pages))))
        ⟨stripDotPdf fn.data⟩)
    rw [pyStripS_clean]
    rfl
  · intro d fn r h
    obtain ⟨pages, -, -, hr⟩ := extract_with_ocr_ok h
    rw [hr]
    show clean_text_for_database (pickTitle10
        (pyLines (clean_text_for_database (ocrContentAux 1 pages)))
        ⟨stripDotPdf fn.data⟩) =
      clean_text_for_database (specTitle
        (pyLines (pyStripS (clean_text_for_database (ocrContentAux 1 pages))))
        ⟨stripDotPdf fn.data⟩)
    rw [pyStripS_clean]
    rfl
  · intro d fn r h
    obtain ⟨md, pagesAttr, -, hr⟩ := extract_with_docling_ok h
    rw [hr]
    show clean_text_for_database (pickTitleDocling
        (pyLines (clean_text_for_database md)) ⟨stripDotPdf fn.data⟩) =
      clean_text_for_database (pickTitleDocling
        (pyLines (pyStripS (clean_text_for_database md))) ⟨stripDotPdf fn.data⟩)
    rw [pyStripS_clean]
  · intro fb
    rfl

/-- Witness for the amended `C4` on a concrete successful native
extraction. -/
theorem title_heuristic_amended_witness :
    (pypdf2Result ["This is a fine test document line."] "report.pdf").title =
      clean_text_for_database (specTitle
        (pyLines (pypdf2Result ["This is a fine test document line."] "report.pdf").content)
        ⟨stripDotPdf "report.pdf".data⟩) :=
  title_heuristic_amended.1 docNative "report.pdf" _ rfl

/-- `C8`: the content of a native or OCR success is the trimmed
sanitized page-marker-joined text, and `raw_text` equals the sanitized
text before that final trim (the two coincide because the sanitizer
itself ends with a trim). -/
theorem content_and_raw_text :
    (∀ (d : PdfDoc) (fn : String) (pages : List String) (r : ExtractionResult),
      d.nativePages = .ok pages → extract_with_pypdf2 d fn = .ok r →
      r.content = pyStripS (clean_text_for_database (nativeContentAux 1 pages)) ∧
      r.raw_text = clean_text_for_database (nativeContentAux 1 pages) ∧
      r.raw_text = r.content) ∧
    (∀ (d : PdfDoc) (fn : String) (pages : List String) (r : ExtractionResult),
      d.ocrPages = .ok pages → extract_with_ocr d fn = .ok r →
      r.content = pyStripS (clean_text_for_database (ocrContentAux 1 pages)) ∧
      r.raw_text = clean_text_for_database (ocrContentAux 1 pages) ∧
      r.raw_text = r.content) := by
  constructor
  · intro d fn pages r hp h
    obtain ⟨pages', hp', -, hr⟩ := extract_with_pypdf2_ok h
    rw [hp] at hp'
    injection hp' with hpages
    subst hpages
    rw [hr]
    exact ⟨rfl, pyStripS_clean _, rfl⟩
  · intro d fn pages r hp h
    obtain ⟨pages', hp', -, hr⟩ := extract_with_ocr_ok h
    rw [hp] at hp'
    injection hp' with hpages
    subst hpages
    rw [hr]
    exact ⟨rfl, pyStripS_clean _, rfl⟩

/-- Witness for `C8` on a concrete successful native extraction. -/
theorem content_and_raw_text_witness :
    (pypdf2Result ["This is a fine test document line."] "report.pdf").content =
      pyStripS (clean_text_for_database
        (nativeContentAux 1 ["This is a fine test document line."])) ∧
    (pypdf2Result ["This is a fine test document line."] "report.pdf").raw_text =
      clean_text_for_database
        (nativeContentAux 1 ["This is a fine test document line."]) ∧
    (pypdf2Result ["This is a fine test document line."] "report.pdf").raw_text =
      (pypdf2Result ["This is a fine test document line."] "report.pdf").content :=
  content_and_raw_text.1 docNative "report.pdf" _ _ rfl rfl

/-- `C9`: in a structural-strategy result, `has_tables` is true iff some
line of the sanitized output contains the column delimiter `'|'`. -/
theorem has_tables_iff_pipe_line (d : PdfDoc) (fn md : String)
    (pg : Option Nat) (r : ExtractionResult)
    (h1 : d.docling = .ok (md, pg))
    (h2 : extract_with_docling d fn = .ok r) :
    (r.metadata.has_tables = true ↔
      ∃ line ∈ pyLines r.content, line.data.contains '|' = true) := by
  obtain ⟨md', pg', hd, hr⟩ := extract_with_docling_ok h2
  rw [h1] at hd
  injection hd with hd'
  injection hd' with hmd hpg
  subst hmd
  subst hpg
  rw [hr]
  show ((pyLines (clean_text_for_database md)).any
      (fun line => line.data.contains '|') = true ↔
    ∃ line ∈ pyLines (pyStripS (clean_text_for_database md)),
      line.data.contains '|' = true)
  rw [pyStripS_clean]
  exact List.any_eq_true

/-- Witness for `C9` on a document whose structural conversion contains a
pipe-delimited line. -/
theorem has_tables_iff_pipe_line_witness :
    ((doclingResult "col a | col b" (some 2) "t.pdf").metadata.has_tables = true ↔
      ∃ line ∈ pyLines (doclingResult "col a | col b" (some 2) "t.pdf").content,
        line.data.contains '|' = true) :=
  has_tables_iff_pipe_line docTables "t.pdf" "col a | col b" (some 2) _ rfl rfl

/-- `pageMarkerCount` never exceeds the number of pages. -/
theorem pageMarkerCount_le (pages : List String) :
    pageMarkerCount pages ≤ pages.length := by
  induction pages with
  | nil => exact Nat.le_refl 0
  | cons p rest ih =>
    rw [pageMarkerCount, List.length_cons]
    by_cases hp : (pyStrip p.data).isEmpty = true
    · rw [if_pos hp]
      omega
    · rw [if_neg hp]
      omega

/-- `pageMarkerCount` as a filter length. -/
theorem pageMarkerCount_eq_filter (pages : List String) :
    pageMarkerCount pages =
      (pages.filter (fun p => !(pyStrip p.data).isEmpty)).length := by
  induction pages with
  | nil => rfl
  | cons p rest ih =>
    rw [pageMarkerCount, ih, List.filter_cons]
    by_cases hp : (pyStrip p.data).isEmpty = true
    · have hf : ¬((!(pyStrip p.data).isEmpty) = true) := by simp [hp]
      rw [if_pos hp, if_neg hf]
      omega
    · have hf : (!(pyStrip p.data).isEmpty) = true := by simp [hp]
      rw [if_neg hp, if_pos hf, List.length_cons]
      omega

/-- A page whose text strips to empty makes the marker count strictly
smaller than the page count. -/
theorem pageMarkerCount_lt (pages : List String)
    (h : ∃ p ∈ pages, (pyStrip p.data).isEmpty = true) :
    pageMarkerCount pages < pages.length := by
  induction pages with
  | nil => simp at h
  | cons p rest ih =>
    rw [pageMarkerCount, List.length_cons]
    by_cases hp : (pyStrip p.data).isEmpty = true
    · rw [if_pos hp]
      have := pageMarkerCount_le rest
      omega
    · rw [if_neg hp]
      obtain ⟨q, hq, hqe⟩ := h
      rcases List.mem_cons.mp hq with rfl | hq'
      · exact absurd hqe hp
      · have := ih ⟨q, hq', hqe⟩
        omega

/-- `C10`: for the native and OCR strategies the page-marker loop appends
one marker per page whose extracted text is non-empty after stripping
(`pageMarkerCount`, the number of non-empty blocks of `pageBlock` /
`ocrPageBlock`), while `page_count` counts all pages; with at least one
text-bearing and at least one text-empty page, strictly fewer markers
than `page_count` are appended. -/
theorem page_markers_vs_page_count :
    (∀ (d : PdfDoc) (fn : String) (pages : List String) (r : ExtractionResult),
      d.nativePages = .ok pages → extract_with_pypdf2 d fn = .ok r →
      r.metadata.page_count = pages.length ∧
      pageMarkerCount pages =
        (pages.filter (fun p => !(pyStrip p.data).isEmpty)).length ∧
      ((∃ p ∈ pages, (pyStrip p.data).isEmpty = false) →
       (∃ p ∈ pages, (pyStrip p.data).isEmpty = true) →
        pageMarkerCount pages < r.metadata.page_count)) ∧
    (∀ (d : PdfDoc) (fn : String) (pages : List String) (r : ExtractionResult),
      d.ocrPages = .ok pages → extract_with_ocr d fn = .ok r →
      r.metadata.page_count = pages.length ∧
      pageMarkerCount pages =
        (pages.filter (fun p => !(pyStrip p.data).isEmpty)).length ∧
      ((∃ p ∈ pages, (pyStrip p.data).isEmpty = false) →
       (∃ p ∈ pages, (pyStrip p.data).isEmpty = true) →
        pageMarkerCount pages < r.metadata.page_count)) := by
  constructor
  · intro d fn pages r hp h
    obtain ⟨pages', hp', -, hr⟩ := extract_with_pypdf2_ok h
    rw [hp] at hp'
    injection hp' with hpages
    subst hpages
    rw [hr]
    exact ⟨rfl, pageMarkerCount_eq_filter pages,
      fun _ he => pageMarkerCount_lt pages he⟩
  · intro d fn pages r hp h
    obtain ⟨pages', hp', -, hr⟩ := extract_with_ocr_ok h
    rw [hp] at hp'
    injection hp' with hpages
    subst hpages
    rw [hr]
    exact ⟨rfl, pageMarkerCount_eq_filter pages,
      fun _ he => pageMarkerCount_lt pages he⟩

/-- Witness for `C10` on a two-page document with one text-bearing and
one whitespace-only page. -/
theorem page_markers_vs_page_count_witness :
    pageMarkerCount ["hello world native text", "  "] <
      (pypdf2Result ["hello world native text", "  "] "m.pdf").metadata.page_count :=
  (page_markers_vs_page_count.1 docMixedPages "m.pdf" _ _ rfl rfl).2.2
    ⟨"hello world native text", by decide, by decide⟩
    ⟨"  ", by decide, by decide⟩
